import Mathlib

/-!
Verification of the Trade Execution & Risk-Sizing Engine of the
Angleito/perplextrader repository.

The Python source is shallowly embedded: decimal arithmetic is modelled
over `ℚ`, Python `dict`s keyed by strings are modelled as association
lists with lookup/assignment functions (`dictGet` / `dictSet`), Python's
`or`-defaulting of falsy arguments is `orDefault`, exceptions are
modelled with `Except`, and external collaborators (the exchange client)
are explicit parameters.  Definitions follow the corresponding functions
in `src/core/agent.py` and `src/core/bluefin_client.py`.
-/

namespace PerplexTrader

/-! ## Python dict model

A Python `dict` keyed by strings, modelled as an association list.
`dictGet` is `d.get(k)`; `dictSet` is `d[k] = v` (it replaces the value
when the key is present and appends a new binding otherwise, so lookups
behave exactly like a Python dict). -/

def dictGet {α : Type} (l : List (String × α)) (k : String) : Option α :=
  (l.find? (fun p => p.1 = k)).map Prod.snd

def dictSet {α : Type} (l : List (String × α)) (k : String) (v : α) :
    List (String × α) :=
  if (l.find? (fun p => p.1 = k)).isSome then
    l.map (fun p => if p.1 = k then (k, v) else p)
  else
    l ++ [(k, v)]

/-! ## Python `or`-defaulting

`x or default` in Python replaces both `None` and `0`/`0.0` (falsy
values) by the default.  Used by `calculate_position_size` in
`src/core/agent.py` for `risk_percentage` and `stop_loss_percentage`. -/

def orDefault (x : Option ℚ) (d : ℚ) : ℚ :=
  match x with
  | none => d
  | some v => if v = 0 then d else v

/-! ## Python round(x, 3)

Round-half-to-even at three decimal places, as applied by
`calculate_position_size` (`position_size = round(position_size, 3)`).
`pyRoundInt` is round-half-to-even to an integer; `round3` scales by
1000. -/

def pyRoundInt (x : ℚ) : ℤ :=
  let f := Int.floor x
  let r := x - f
  if r < 1/2 then f
  else if 1/2 < r then f + 1
  else if Even f then f else f + 1

def round3 (x : ℚ) : ℚ :=
  (pyRoundInt (1000 * x) : ℚ) / 1000

/-! ## Risk parameters and trading parameters

`RISK_PARAMS.get("max_risk_per_trade", 0.02)`,
`RISK_PARAMS.get("stop_loss_percentage", 0.05)` and
`TRADING_PARAMS.get("max_position_size_usd", 1000)` as read by
`calculate_position_size` in `src/core/agent.py`. -/

structure RiskParams where
  max_risk_per_trade : ℚ
  stop_loss_percentage : ℚ

structure TradingParams where
  max_position_size_usd : ℚ

/-- The constant returned by the exception handler of
`calculate_position_size` (`return 0.001  # Minimal position size as
fallback`). -/
def fallback_position_size : ℚ := 1/1000

/-- Happy path of the module-level `calculate_position_size` in
`src/core/agent.py` (lines 2032-2088), with the externally fetched
`margin_balance` and `current_price` as explicit inputs.  A zero divisor
in the sizing formula raises `ZeroDivisionError` in Python, modelled as
`Except.error`.  When the divisor is non-zero, `current_price` itself is
non-zero, so the subsequent `max_position_size` division is safe. -/
def calculate_position_size_core (rp : RiskParams) (tp : TradingParams)
    (risk_percentage stop_loss_percentage : Option ℚ)
    (margin_balance current_price : ℚ) : Except Unit ℚ :=
  let riskPct := orDefault risk_percentage rp.max_risk_per_trade
  let slPct := orDefault stop_loss_percentage rp.stop_loss_percentage
  let risk_amount := margin_balance * riskPct
  if current_price * slPct = 0 then Except.error ()
  else
    let position_size := risk_amount / (current_price * slPct)
    let max_position_size := tp.max_position_size_usd / current_price
    let position_size := min position_size max_position_size
    Except.ok (round3 position_size)

/-- The module-level `calculate_position_size` including its
`try`/`except` wrapper: any exception yields the minimal safe default
`0.001`. -/
def calculate_position_size (rp : RiskParams) (tp : TradingParams)
    (risk_percentage stop_loss_percentage : Option ℚ)
    (margin_balance current_price : ℚ) : ℚ :=
  match calculate_position_size_core rp tp risk_percentage
      stop_loss_percentage margin_balance current_price with
  | Except.ok q => q
  | Except.error _ => fallback_position_size

/-! ## The RiskManager class (src/core/agent.py lines 572-588) -/

structure RiskManager where
  account_balance : ℚ
  max_risk_per_trade : ℚ

/-- `RiskManager.calculate_position_size(entry_price, stop_loss)`:
guards the zero price-risk case explicitly, returning 0. -/
def RiskManager.calculate_position_size (rm : RiskManager)
    (entry_price stop_loss : ℚ) : ℚ :=
  let risk_amount := rm.account_balance * rm.max_risk_per_trade
  let price_risk := |entry_price - stop_loss|
  if price_risk = 0 then 0
  else risk_amount / price_risk

/-! ## The Order record (src/core/agent.py lines 2236-2268)

The `created_at` timestamp (`datetime.now()`) is wall-clock time and is
not modelled; every other attribute set by `Order.__init__` is a field. -/

structure Order where
  symbol : String
  side : String
  quantity : ℚ
  order_type : String
  price : ℚ
  leverage : ℤ
  hash : String
  status : String
  settlement_status : String
  requeue_count : ℕ
  cancelled : Bool
  fill_price : ℚ
  matched_quantity : ℚ
  is_maker : Bool
deriving DecidableEq, Repr

/-- `Order.__init__`: the constructor arguments plus the fixed initial
settlement sub-state (`settlement_status="pending"`, `requeue_count=0`,
`cancelled=False`, `fill_price=0.0`, `matched_quantity=0.0`,
`is_maker=False`). -/
def Order.init (symbol side : String) (quantity : ℚ) (order_type : String)
    (price : ℚ) (leverage : ℤ) (order_hash : String) (status : String) :
    Order :=
  { symbol := symbol
    side := side
    quantity := quantity
    order_type := order_type
    price := price
    leverage := leverage
    hash := order_hash
    status := status
    settlement_status := "pending"
    requeue_count := 0
    cancelled := false
    fill_price := 0
    matched_quantity := 0
    is_maker := false }

/-! ## BluefinSuiClient ledger state (src/core/bluefin_client.py)

`self.orders = {}` and `self.requeue_counts = {}` from `__init__`
(lines 152-153). -/

structure ClientState where
  orders : List (String × Order)
  requeue_counts : List (String × ℕ)
deriving DecidableEq, Repr

/-- `REQUEUE_ADJUSTMENT_THRESHOLD = 2` (src/core/bluefin_client.py
line 65). -/
def REQUEUE_ADJUSTMENT_THRESHOLD : ℕ := 2

/-- `save_order` (src/core/bluefin_client.py lines 468-485): looks the
order up by `order.hash`; if present, overwrites every attribute of the
stored entry with the given order's values, otherwise adds the order
under its hash. -/
def save_order (st : ClientState) (o : Order) : ClientState :=
  { st with orders := dictSet st.orders o.hash o }

/-! ## Exchange stream events (payload fields read by the handlers) -/

structure SettlementEvent where
  orderHash : String
  symbol : String
  quantitySentForSettlement : ℚ
  isMaker : Bool
  isBuy : Bool
  avgFillPrice : ℚ
  fillId : String

structure RequeueEvent where
  orderHash : String
  symbol : String
  quantitySentForRequeue : ℚ
  isBuy : Bool
  fillId : String

structure CancellationEvent where
  orderHash : String
  symbol : String
  quantitySentForCancellation : ℚ
  isBuy : Bool
  fillId : String

/-- `order_settlement_update_handler` (src/core/bluefin_client.py lines
389-414).  An unknown order hash is logged as a warning and the state is
left untouched.  For a known order, the handler mutates the dict's order
object in place (`settlement_status`, `fill_price`, `matched_quantity`,
`is_maker`) and then calls `save_order`; since Python mutation aliases
the ledger entry, the entry at the event's hash is updated before
`save_order` runs. -/
def order_settlement_update_handler (st : ClientState)
    (ev : SettlementEvent) : ClientState :=
  match dictGet st.orders ev.orderHash with
  | none => st
  | some o =>
    let o' := { o with
      settlement_status := "sent"
      fill_price := ev.avgFillPrice
      matched_quantity := ev.quantitySentForSettlement
      is_maker := ev.isMaker }
    save_order { st with orders := dictSet st.orders ev.orderHash o' } o'

/-- `order_requeue_update_handler` (src/core/bluefin_client.py lines
416-445).  Increments `self.requeue_counts[orderHash]` (not the Order's
own `requeue_count` field); once the count exceeds
`REQUEUE_ADJUSTMENT_THRESHOLD` the order's price is multiplied by 1.01
for BUY and 0.99 for SELL, then `save_order` is called. -/
def order_requeue_update_handler (st : ClientState) (ev : RequeueEvent) :
    ClientState :=
  match dictGet st.orders ev.orderHash with
  | none => st
  | some o =>
    let cnt := ((dictGet st.requeue_counts ev.orderHash).getD 0) + 1
    let counts := dictSet st.requeue_counts ev.orderHash cnt
    let o' :=
      if REQUEUE_ADJUSTMENT_THRESHOLD < cnt then
        { o with price :=
            o.price * (if o.side = "BUY" then (101 : ℚ)/100 else 99/100) }
      else o
    save_order
      { st with
        orders := dictSet st.orders ev.orderHash o'
        requeue_counts := counts } o'

/-- `order_cancelled_on_reversion_handler` (src/core/bluefin_client.py
lines 447-466): marks the matching order `cancelled = True` and calls
`save_order`; an unknown hash leaves the state untouched. -/
def order_cancelled_on_reversion_handler (st : ClientState)
    (ev : CancellationEvent) : ClientState :=
  match dictGet st.orders ev.orderHash with
  | none => st
  | some o =>
    let o' := { o with cancelled := true }
    save_order { st with orders := dictSet st.orders ev.orderHash o' } o'

/-! ## BluefinSuiClient.place_order (src/core/bluefin_client.py lines
210-281)

The outcome of `create_signed_order` is either an exception or a signed
order carrying an optional `orderHash` (the handler reads it with
`signed_order.get('orderHash', '')`); `post_signed_order` either raises
or returns a response.  Both outcomes are explicit oracle inputs.  The
leverage pre-set, side/type enum conversions and the signature-request
payload do not touch the ledger and are not modelled. -/

inductive SignedOrderResult where
  | raised
  | signed (orderHash : Option String)
deriving DecidableEq, Repr

inductive PostResult where
  | raised
  | posted
deriving DecidableEq, Repr

structure PlaceOrderArgs where
  symbol : String
  side : String
  quantity : ℚ
  price : Option ℚ
  order_type : String
  leverage : Option ℤ

/-- `place_order`: on any exception during signing or posting, the
exception is logged and re-raised (`Except.error`) and the ledger is
untouched; on success, an `Order` is constructed with
`price=price or 0.0`, `leverage=leverage or 1`,
`order_hash=signed_order.get('orderHash', '')`, `status='created'` and
stored under `signed_order.get('orderHash', '')`. -/
def place_order (st : ClientState) (a : PlaceOrderArgs)
    (signed : SignedOrderResult) (post : PostResult) :
    Except Unit Unit × ClientState :=
  match signed with
  | SignedOrderResult.raised => (Except.error (), st)
  | SignedOrderResult.signed oh =>
    match post with
    | PostResult.raised => (Except.error (), st)
    | PostResult.posted =>
      let key := oh.getD ""
      let o := Order.init a.symbol a.side a.quantity a.order_type
        (match a.price with
         | none => 0
         | some p => if p = 0 then 0 else p)
        (match a.leverage with
         | none => 1
         | some l => if l = 0 then 1 else l)
        key "created"
      (Except.ok (), { st with orders := dictSet st.orders key o })

/-! ## ensure_leverage (src/core/agent.py lines 2188-2233)

The exchange client is abstracted over a state type `σ`:
`getLeverage` models `client.get_user_leverage(symbol)` (which can
raise), `setLeverage` models `client.set_leverage(symbol, target)` /
`client.adjust_leverage(...)` (its Python result is an arbitrary value,
classified by whether it is a dict with a truthy `success` entry, a
dict without one or a non-dict, or an exception), and
`hasSetCapability` models the `hasattr` probes. -/

inductive SetResult where
  | dictRes (success : Bool)
  | nonDict
  | raised
deriving DecidableEq, Repr

structure LevClient (σ : Type) where
  hasSetCapability : Bool
  getLeverage : σ → String → Except Unit ℤ
  setLeverage : σ → String → ℤ → SetResult × σ

/-- `ensure_leverage(symbol, target_leverage)`.  Returns the boolean
result, the number of leverage-setting calls performed, and the
resulting exchange state.  Mirrors the source: read current leverage
(exception yields `False`); if equal to target return `True` with no
set call; otherwise invoke the set operation when the capability exists
and return `isinstance(result, dict) and result.get('success', False)`;
any exception yields `False`. -/
def ensure_leverage {σ : Type} (c : LevClient σ) (st : σ)
    (symbol : String) (target : ℤ) : Bool × ℕ × σ :=
  match c.getLeverage st symbol with
  | Except.error _ => (false, 0, st)
  | Except.ok current =>
    if current = target then (true, 0, st)
    else if c.hasSetCapability then
      match c.setLeverage st symbol target with
      | (SetResult.dictRes s, st') => (s, 1, st')
      | (SetResult.nonDict, st') => (false, 1, st')
      | (SetResult.raised, st') => (false, 1, st')
    else (false, 0, st)

/-! ## Protective legs of execute_trade (src/core/agent.py lines
1393-1486)

After the primary order succeeds, `execute_trade` places a stop-loss
leg and a take-profit leg, each guarded by
`if pct and pct > 0 and main_order:` and each computing
`entry_price = main_order.get("price") if main_order.get("price") else
market_price` (a price of 0 is falsy).  The submitted leg parameters
(side, size, price, order type, reduce_only, leverage) are recorded;
leg failures are logged and do not affect the primary result. -/

structure LegOrder where
  symbol : String
  side : String
  size : ℚ
  price : ℚ
  order_type : String
  reduce_only : Bool
  leverage : ℤ
deriving DecidableEq, Repr

/-- The protective-leg placement section of `execute_trade`:
the list of protective-leg submissions it performs, in order
(stop-loss leg first, then take-profit leg). -/
def execute_trade_protective_legs (symbol side : String)
    (position_size : ℚ) (leverage_value : ℤ)
    (stop_loss_percentage take_profit_percentage : Option ℚ)
    (main_order_price : Option ℚ) (main_order_truthy : Bool)
    (market_price : ℚ) : List LegOrder :=
  let entry_price :=
    match main_order_price with
    | none => market_price
    | some p => if p = 0 then market_price else p
  let slLegs :=
    match stop_loss_percentage with
    | none => []
    | some sl =>
      if sl ≠ 0 ∧ 0 < sl ∧ main_order_truthy = true then
        let stop_price :=
          if side = "BUY" then entry_price * (1 - sl)
          else entry_price * (1 + sl)
        let stop_loss_side := if side = "BUY" then "SELL" else "BUY"
        [{ symbol := symbol
           side := stop_loss_side
           size := position_size
           price := stop_price
           order_type := "STOP_MARKET"
           reduce_only := true
           leverage := leverage_value }]
      else []
  let tpLegs :=
    match take_profit_percentage with
    | none => []
    | some tpp =>
      if tpp ≠ 0 ∧ 0 < tpp ∧ main_order_truthy = true then
        let take_profit_price :=
          if side = "BUY" then entry_price * (1 + tpp)
          else entry_price * (1 - tpp)
        let take_profit_side := if side = "BUY" then "SELL" else "BUY"
        [{ symbol := symbol
           side := take_profit_side
           size := position_size
           price := take_profit_price
           order_type := "LIMIT"
           reduce_only := true
           leverage := leverage_value }]
      else []
  slLegs ++ tpLegs

/-! ## Concrete scenarios used by the theorems below -/

/-- A BUY limit order at price 100 tracked under hash `h1`, as in the
requeue scenario of the spec. -/
def requeueOrder : Order := Order.init "BTC-PERP" "BUY" 1 "LIMIT" 100 1 "h1" "created"

/-- Ledger holding only `requeueOrder`; no requeue counts yet. -/
def requeueState : ClientState := ⟨[("h1", requeueOrder)], []⟩

/-- A requeue event for hash `h1`. -/
def requeueEvent : RequeueEvent := ⟨"h1", "BTC-PERP", 1, true, "f1"⟩

/-- The ledger after three consecutive requeue events for `h1`. -/
def requeueThrice : ClientState :=
  order_requeue_update_handler
    (order_requeue_update_handler
      (order_requeue_update_handler requeueState requeueEvent) requeueEvent)
    requeueEvent

/-- A well-behaved exchange client for leverage operations: reads return
the stored leverage, sets succeed and store the target. -/
def constLevClient : LevClient ℤ where
  hasSetCapability := true
  getLeverage := fun s _ => Except.ok s
  setLeverage := fun _ _ t => (SetResult.dictRes true, t)

/-- An exchange client whose leverage-set operation returns a non-dict
value and changes nothing. -/
def nonDictLevClient : LevClient ℤ where
  hasSetCapability := true
  getLeverage := fun s _ => Except.ok s
  setLeverage := fun s _ _ => (SetResult.nonDict, s)

/-! ## Helper lemmas about rounding -/

theorem pyRoundInt_le (x : ℚ) : (pyRoundInt x : ℚ) ≤ x + 1/2 := by
  have hfl : (Int.floor x : ℚ) ≤ x := Int.floor_le x
  simp only [pyRoundInt]
  split_ifs with h1 h2 h3 <;> push_cast <;> linarith

theorem pyRoundInt_nonneg (x : ℚ) (h : 0 ≤ x) : 0 ≤ pyRoundInt x := by
  have hfl : (0 : ℤ) ≤ Int.floor x := Int.floor_nonneg.mpr h
  simp only [pyRoundInt]
  split_ifs <;> omega

theorem round3_le (x : ℚ) : round3 x ≤ x + 1/2000 := by
  unfold round3
  have h := pyRoundInt_le (1000 * x)
  linarith

theorem round3_nonneg (x : ℚ) (h : 0 ≤ x) : 0 ≤ round3 x := by
  unfold round3
  have h0 : (0 : ℚ) ≤ (pyRoundInt (1000 * x) : ℚ) := by
    exact_mod_cast pyRoundInt_nonneg (1000 * x) (by linarith)
  linarith

/-- A claim C1: as stated the clamp fails after rounding.  With
`max_position_size_usd = 1000` and `current_price = 600000` the cap is
`1000/600000 = 1/600 ≈ 0.001667`, and for `account_balance = 1000`,
`risk_percentage = 1`, `stop_loss_percentage = 1/20` (all inside the
claim's preconditions) the clamped size `1/600` rounds up to
`0.002 = 1/500`, which exceeds the cap. -/
theorem C1_counterexample :
    (0 : ℚ) < 1000 ∧ (0 : ℚ) < 1 ∧ (1 : ℚ) ≤ 1 ∧
    (0 : ℚ) < 1/20 ∧ (1/20 : ℚ) ≤ 1 ∧ (0 : ℚ) < 600000 ∧
    calculate_position_size ⟨1/50, 1/20⟩ ⟨1000⟩ (some 1) (some (1/20))
      1000 600000 = 1/500 ∧
    ¬ (calculate_position_size ⟨1/50, 1/20⟩ ⟨1000⟩ (some 1) (some (1/20))
        1000 600000 ≤ 1000 / 600000) := by
  refine ⟨by norm_num, by norm_num, le_refl 1, by norm_num, by norm_num,
    by norm_num, ?_, ?_⟩ <;>
  norm_num [calculate_position_size, calculate_position_size_core, orDefault,
    round3, pyRoundInt]

/-- Claim C1 (amended): for positive balance, risk and stop-loss
percentages in (0,1] and a positive price, `calculate_position_size` is
non-negative and exceeds the cap `max_position_size_usd / current_price`
by at most `1/2000` (half of the final 3-decimal rounding step); the
clamp holds exactly before rounding, and the exception fallback is the
constant `0.001` (which is non-negative but not itself clamped to the
cap). -/
theorem C1_calculate_position_size_bounds
    (rp : RiskParams) (tp : TradingParams) (risk sl balance price : ℚ)
    (hb : 0 < balance) (hr : 0 < risk) (hr1 : risk ≤ 1)
    (hs : 0 < sl) (hs1 : sl ≤ 1) (hp : 0 < price)
    (hm : 0 ≤ tp.max_position_size_usd) :
    0 ≤ calculate_position_size rp tp (some risk) (some sl) balance price ∧
    calculate_position_size rp tp (some risk) (some sl) balance price
      ≤ tp.max_position_size_usd / price + 1/2000 ∧
    fallback_position_size = 1/1000 := by
  have hrisk : risk ≠ 0 := ne_of_gt hr
  have hsl : sl ≠ 0 := ne_of_gt hs
  have hdenom : price * sl ≠ 0 := ne_of_gt (mul_pos hp hs)
  have hval : calculate_position_size rp tp (some risk) (some sl) balance price
      = round3 (min (balance * risk / (price * sl))
          (tp.max_position_size_usd / price)) := by
    simp only [calculate_position_size, calculate_position_size_core, orDefault,
      if_neg hrisk, if_neg hsl, if_neg hdenom]
  rw [hval]
  have hps : 0 ≤ balance * risk / (price * sl) :=
    div_nonneg (by positivity) (le_of_lt (mul_pos hp hs))
  have hcap : 0 ≤ tp.max_position_size_usd / price := div_nonneg hm (le_of_lt hp)
  refine ⟨round3_nonneg _ (le_min hps hcap), ?_, rfl⟩
  have h1 := round3_le (min (balance * risk / (price * sl))
    (tp.max_position_size_usd / price))
  have h2 : min (balance * risk / (price * sl))
      (tp.max_position_size_usd / price) ≤ tp.max_position_size_usd / price :=
    min_le_right _ _
  linarith

/-- Witness for C1: the bounds instantiated at balance 1000, risk 2%,
stop-loss 5%, price 100, cap 1000 USD. -/
theorem C1_witness :
    0 ≤ calculate_position_size ⟨1/50, 1/20⟩ ⟨1000⟩ (some (1/50)) (some (1/20))
        1000 100 ∧
    calculate_position_size ⟨1/50, 1/20⟩ ⟨1000⟩ (some (1/50)) (some (1/20))
        1000 100 ≤ (1000 : ℚ) / 100 + 1/2000 ∧
    fallback_position_size = 1/1000 :=
  C1_calculate_position_size_bounds ⟨1/50, 1/20⟩ ⟨1000⟩ (1/50) (1/20) 1000 100
    (by norm_num) (by norm_num) (by norm_num) (by norm_num) (by norm_num)
    (by norm_num) (by norm_num)

/-- A claim C3: the module-level `calculate_position_size` does not
return 0 when `stop_loss_percentage = 0` is passed: the falsy argument
is replaced by the configured default (here 5%), and with balance 1000,
risk 2% and price 100 the function returns 4, not 0. -/
theorem C3_counterexample :
    calculate_position_size ⟨1/50, 1/20⟩ ⟨1000⟩ (some (1/50)) (some 0)
      1000 100 = 4 ∧ (4 : ℚ) ≠ 0 := by
  constructor
  · norm_num [calculate_position_size, calculate_position_size_core, orDefault,
      round3, pyRoundInt]
  · norm_num

/-- Claim C3 (amended): `RiskManager.calculate_position_size` returns
exactly 0 when the entry price equals the stop price (the division is
explicitly guarded); the module-level `calculate_position_size` never
raises a division error: a `stop_loss_percentage = 0` argument is
coerced to the configured default by Python `or`, and when the
configured default itself is 0 (so the effective divisor collapses to
0) the `ZeroDivisionError` is caught and the 0.001 fallback is
returned instead of 0. -/
theorem C3_zero_price_risk_guarded (rm : RiskManager) (p : ℚ)
    (tp : TradingParams) (risk : Option ℚ) (balance price maxr : ℚ) :
    RiskManager.calculate_position_size rm p p = 0 ∧
    calculate_position_size ⟨maxr, 0⟩ tp risk (some 0) balance price
      = fallback_position_size ∧
    calculate_position_size ⟨maxr, 0⟩ tp risk none balance price
      = fallback_position_size := by
  refine ⟨?_, ?_, ?_⟩
  · simp [RiskManager.calculate_position_size]
  · simp [calculate_position_size, calculate_position_size_core, orDefault]
  · simp [calculate_position_size, calculate_position_size_core, orDefault]

/-- Claim C4: for a primary BUY order whose reported execution price is
100, with stop-loss percentage 5% and take-profit percentage 10%,
`execute_trade` submits a STOP_MARKET stop-loss leg at 95 and a LIMIT
take-profit leg at 110, both with the opposite side SELL and
`reduce_only=true`. -/
theorem C4_protective_legs (symbol : String) (size : ℚ) (lev : ℤ)
    (market_price : ℚ) :
    execute_trade_protective_legs symbol "BUY" size lev (some (1/20))
        (some (1/10)) (some 100) true market_price =
      [{ symbol := symbol, side := "SELL", size := size, price := 95,
         order_type := "STOP_MARKET", reduce_only := true, leverage := lev },
       { symbol := symbol, side := "SELL", size := size, price := 110,
         order_type := "LIMIT", reduce_only := true, leverage := lev }] := by
  norm_num [execute_trade_protective_legs]

/-- Claim C5: `ensure_leverage` is idempotent.  When the read-back
current leverage already equals the target, it returns true immediately
with no leverage-setting call and an unchanged exchange state; and for
an exchange whose set operation succeeds and takes effect whenever
invoked, two successive `ensure_leverage(symbol, N)` calls perform at
most one leverage-setting call in total. -/
theorem C5_ensure_leverage_idempotent {σ : Type} (c : LevClient σ) (st : σ)
    (symbol : String) (target : ℤ)
    (hset : ∀ s : σ, (c.setLeverage s symbol target).1 = SetResult.dictRes true ∧
      c.getLeverage (c.setLeverage s symbol target).2 symbol = Except.ok target) :
    (c.getLeverage st symbol = Except.ok target →
      ensure_leverage c st symbol target = (true, 0, st)) ∧
    (ensure_leverage c st symbol target).2.1 +
      (ensure_leverage c (ensure_leverage c st symbol target).2.2
        symbol target).2.1 ≤ 1 := by
  constructor
  · intro h
    simp [ensure_leverage, h]
  · rcases hg : c.getLeverage st symbol with e | cur
    · simp [ensure_leverage, hg]
    · by_cases hc : cur = target
      · simp [ensure_leverage, hg, hc]
      · by_cases hcap : c.hasSetCapability
        · obtain ⟨h1, h2⟩ := hset st
          rcases hs : c.setLeverage st symbol target with ⟨r, st2⟩
          rw [hs] at h1 h2
          simp only at h1 h2
          subst h1
          simp [ensure_leverage, hg, hc, hcap, hs, h2]
        · simp [ensure_leverage, hg, hc, hcap]

/-- Witness for C5 at a concrete well-behaved client: current leverage
0, target 5. -/
theorem C5_witness :
    (constLevClient.getLeverage 0 "BTC-PERP" = Except.ok 5 →
      ensure_leverage constLevClient 0 "BTC-PERP" 5 = (true, 0, 0)) ∧
    (ensure_leverage constLevClient 0 "BTC-PERP" 5).2.1 +
      (ensure_leverage constLevClient
        (ensure_leverage constLevClient 0 "BTC-PERP" 5).2.2
        "BTC-PERP" 5).2.1 ≤ 1 :=
  C5_ensure_leverage_idempotent constLevClient 0 "BTC-PERP" 5
    (fun _ => ⟨rfl, rfl⟩)

/-- Claim C6: `ensure_leverage` returns true only when the set
operation's result explicitly indicates success: an exception during
the leverage read yields false with nothing set and an unchanged
state; when the set operation is invoked, a raised exception, a
non-dict result, or a dict without a truthy success flag all yield
false, and a dict result yields exactly its success flag; and a true
result means either the leverage already matched or the set result was
a dict with a truthy success flag. -/
theorem C6_ensure_leverage_success_flag {σ : Type} (c : LevClient σ)
    (st : σ) (symbol : String) (target : ℤ) :
    (c.getLeverage st symbol = Except.error () →
      ensure_leverage c st symbol target = (false, 0, st)) ∧
    (∀ cur, c.getLeverage st symbol = Except.ok cur → cur ≠ target →
      c.hasSetCapability = true →
      ((c.setLeverage st symbol target).1 = SetResult.raised →
        (ensure_leverage c st symbol target).1 = false) ∧
      ((c.setLeverage st symbol target).1 = SetResult.nonDict →
        (ensure_leverage c st symbol target).1 = false) ∧
      (∀ b, (c.setLeverage st symbol target).1 = SetResult.dictRes b →
        (ensure_leverage c st symbol target).1 = b)) ∧
    ((ensure_leverage c st symbol target).1 = true →
      c.getLeverage st symbol = Except.ok target ∨
      (c.setLeverage st symbol target).1 = SetResult.dictRes true) := by
  refine ⟨?_, ?_, ?_⟩
  · intro h
    simp [ensure_leverage, h]
  · intro cur hg hc hcap
    rcases hs : c.setLeverage st symbol target with ⟨r, st2⟩
    refine ⟨?_, ?_, ?_⟩
    · intro hr
      simp only at hr
      subst hr
      simp [ensure_leverage, hg, hc, hcap, hs]
    · intro hr
      simp only at hr
      subst hr
      simp [ensure_leverage, hg, hc, hcap, hs]
    · intro b hr
      simp only at hr
      subst hr
      simp [ensure_leverage, hg, hc, hcap, hs]
  · intro h
    rcases hg : c.getLeverage st symbol with e | cur
    · simp [ensure_leverage, hg] at h
    · by_cases hc : cur = target
      · exact Or.inl (by rw [hc])
      · by_cases hcap : c.hasSetCapability
        · rcases hs : c.setLeverage st symbol target with ⟨r, st2⟩
          rcases r with b | _ | _ <;>
            simp [ensure_leverage, hg, hc, hcap, hs] at h <;>
            simp [hs, h]
        · simp [ensure_leverage, hg, hc, hcap] at h

/-- Witness for C6: a client whose set operation returns a non-dict
value; from current leverage 3 and target 5, `ensure_leverage` returns
false. -/
theorem C6_witness :
    (ensure_leverage nonDictLevClient 3 "BTC-PERP" 5).1 = false :=
  ((C6_ensure_leverage_success_flag nonDictLevClient 3 "BTC-PERP" 5).2.1
    3 rfl (by decide) rfl).2.1 rfl

/-! ## Helper lemmas about the dict model -/

theorem find?_map_update_self {α : Type} (l : List (String × α))
    (k : String) (v : α) :
    (l.map (fun p => if p.1 = k then (k, v) else p)).find?
        (fun p => p.1 = k) =
      (l.find? (fun p => p.1 = k)).map (fun _ => (k, v)) := by
  induction l with
  | nil => rfl
  | cons a t ih =>
    by_cases hak : a.1 = k
    · simp [List.find?, hak]
    · simp [List.find?, hak, ih]

theorem find?_append_single_self {α : Type} (l : List (String × α))
    (k : String) (v : α) (h : l.find? (fun p => p.1 = k) = none) :
    (l ++ [(k, v)]).find? (fun p => p.1 = k) = some (k, v) := by
  induction l with
  | nil => simp [List.find?]
  | cons a t ih =>
    by_cases hak : a.1 = k
    · simp [List.find?, hak] at h
    · rw [List.find?_cons_of_neg _ (by simpa using hak)] at h
      rw [List.cons_append, List.find?_cons_of_neg _ (by simpa using hak)]
      exact ih h

theorem find?_map_update_ne {α : Type} (l : List (String × α))
    (k k' : String) (v : α) (h : k' ≠ k) :
    (l.map (fun p => if p.1 = k then (k, v) else p)).find?
        (fun p => p.1 = k') =
      l.find? (fun p => p.1 = k') := by
  induction l with
  | nil => rfl
  | cons a t ih =>
    by_cases hak : a.1 = k
    · simp [List.find?, hak, Ne.symm h, ih]
    · by_cases hk : a.1 = k'
      · simp [List.find?, hak, hk, h]
      · simp [List.find?, hak, hk, ih]

theorem find?_append_single_ne {α : Type} (l : List (String × α))
    (k k' : String) (v : α) (h : k' ≠ k) :
    (l ++ [(k, v)]).find? (fun p => p.1 = k') =
      l.find? (fun p => p.1 = k') := by
  induction l with
  | nil => simp [List.find?, Ne.symm h]
  | cons a t ih =>
    by_cases hk : a.1 = k'
    · simp [List.find?, hk]
    · simp [List.find?, hk, ih]

theorem dictGet_dictSet_self {α : Type} (l : List (String × α))
    (k : String) (v : α) :
    dictGet (dictSet l k v) k = some v := by
  unfold dictGet dictSet
  by_cases hf : (l.find? (fun p => p.1 = k)).isSome
  · rw [if_pos hf, find?_map_update_self]
    obtain ⟨pr, hpr⟩ := Option.isSome_iff_exists.mp hf
    rw [hpr]
    rfl
  · rw [if_neg hf,
      find?_append_single_self l k v (Option.not_isSome_iff_eq_none.mp hf)]
    rfl

theorem dictGet_dictSet_ne {α : Type} (l : List (String × α))
    (k k' : String) (v : α) (h : k' ≠ k) :
    dictGet (dictSet l k v) k' = dictGet l k' := by
  unfold dictGet dictSet
  by_cases hf : (l.find? (fun p => p.1 = k)).isSome
  · rw [if_pos hf, find?_map_update_ne l k k' v h]
  · rw [if_neg hf, find?_append_single_ne l k k' v h]

/-- Claim C7: a settlement event whose order hash is not in the Ledger
leaves the client state exactly unchanged: no entry is created, no entry
is mutated, and (the handler being a total function) no exception is
raised; the event is only logged. -/
theorem C7_settlement_unknown_hash (st : ClientState) (ev : SettlementEvent)
    (h : dictGet st.orders ev.orderHash = none) :
    order_settlement_update_handler st ev = st := by
  unfold order_settlement_update_handler
  rw [h]

/-- Witness for C7: a settlement event against an empty ledger. -/
theorem C7_witness :
    order_settlement_update_handler ⟨[], []⟩ ⟨"0xabc", "BTC-PERP", 1, true,
      true, 50000, "fill-1"⟩ = (⟨[], []⟩ : ClientState) :=
  C7_settlement_unknown_hash ⟨[], []⟩
    ⟨"0xabc", "BTC-PERP", 1, true, true, 50000, "fill-1"⟩ rfl

/-- Claim C8: in a well-formed ledger (each tracked order's hash equals
its key), an `OrderCancelledOnReversionUpdate` whose hash matches a
Ledger entry replaces that entry by the same order with
`cancelled = true` (so every other field — symbol, side, quantity,
order type, price, leverage, hash, status, settlement_status,
requeue_count, fill_price, matched_quantity, is_maker — is unchanged),
leaves every other Ledger entry unchanged, and leaves the requeue
counts unchanged. -/
theorem C8_cancellation_frame (st : ClientState) (ev : CancellationEvent)
    (o : Order)
    (hwf : ∀ k o₀, dictGet st.orders k = some o₀ → o₀.hash = k)
    (h : dictGet st.orders ev.orderHash = some o) :
    dictGet (order_cancelled_on_reversion_handler st ev).orders ev.orderHash
      = some { o with cancelled := true } ∧
    (∀ k, k ≠ ev.orderHash →
      dictGet (order_cancelled_on_reversion_handler st ev).orders k
        = dictGet st.orders k) ∧
    (order_cancelled_on_reversion_handler st ev).requeue_counts
      = st.requeue_counts := by
  have hhash : o.hash = ev.orderHash := hwf ev.orderHash o h
  have hres : order_cancelled_on_reversion_handler st ev =
      ⟨dictSet (dictSet st.orders ev.orderHash { o with cancelled := true })
        ev.orderHash { o with cancelled := true }, st.requeue_counts⟩ := by
    unfold order_cancelled_on_reversion_handler save_order
    rw [h]
    simp only
    rw [show ({ o with cancelled := true } : Order).hash = ev.orderHash from
      hhash]
  rw [hres]
  refine ⟨dictGet_dictSet_self _ _ _, ?_, rfl⟩
  intro k hk
  simp only
  rw [dictGet_dictSet_ne _ _ _ _ hk, dictGet_dictSet_ne _ _ _ _ hk]

theorem dictGet_singleton_self {α : Type} (a : String) (b : α) :
    dictGet [(a, b)] a = some b := by
  simp [dictGet, List.find?]

theorem dictGet_singleton {α : Type} (a : String) (b : α) (k : String)
    (w : α) (h : dictGet [(a, b)] k = some w) : w = b ∧ a = k := by
  by_cases hk : a = k
  · refine ⟨?_, hk⟩
    rw [← hk] at h
    rw [dictGet_singleton_self] at h
    exact (Option.some.inj h).symm
  · simp [dictGet, List.find?, hk] at h

/-- Witness for C8: cancelling the tracked BUY order of `requeueState`
flips only its `cancelled` flag. -/
theorem C8_witness :
    dictGet (order_cancelled_on_reversion_handler requeueState
        ⟨"h1", "BTC-PERP", 1, true, "f1"⟩).orders "h1"
      = some { requeueOrder with cancelled := true } ∧
    (∀ k, k ≠ "h1" →
      dictGet (order_cancelled_on_reversion_handler requeueState
          ⟨"h1", "BTC-PERP", 1, true, "f1"⟩).orders k
        = dictGet requeueState.orders k) ∧
    (order_cancelled_on_reversion_handler requeueState
        ⟨"h1", "BTC-PERP", 1, true, "f1"⟩).requeue_counts
      = requeueState.requeue_counts :=
  C8_cancellation_frame requeueState ⟨"h1", "BTC-PERP", 1, true, "f1"⟩
    requeueOrder
    (fun k oo hh => by
      obtain ⟨hw, hk⟩ := dictGet_singleton "h1" requeueOrder k oo hh
      rw [hw, ← hk]
      rfl)
    rfl

/-- A claim C2: after three consecutive requeue events (threshold 2) for
the tracked BUY order at price 100, the order's price is 101 but the
Order object's `requeue_count` field is still 0, not 3: the handler
counts requeues in the client-level `requeue_counts` dict and never
increments the Order's own field. -/
theorem C2_counterexample :
    (dictGet requeueThrice.orders "h1").map Order.price = some 101 ∧
    (dictGet requeueThrice.orders "h1").map Order.requeue_count = some 0 ∧
    ¬ (dictGet requeueThrice.orders "h1").map Order.requeue_count
        = some 3 := by
  refine ⟨?_, ?_, ?_⟩ <;>
    norm_num [requeueThrice, requeueState, requeueOrder, requeueEvent,
      Order.init, order_requeue_update_handler, save_order, dictGet, dictSet,
      List.find?, REQUEUE_ADJUSTMENT_THRESHOLD]

/-- Claim C2 (amended): three consecutive requeue events for a tracked
BUY order at price 100 leave the order at price 101 (adjusted once, by
the third event, since the count then first exceeds the threshold 2)
with every other Order field — including its `requeue_count`, which
stays at its prior value — unchanged, while the client's
`requeue_counts` entry for the order's hash is 3. -/
theorem C2_requeue_adjustment (o : Order) (ev : RequeueEvent)
    (hside : o.side = "BUY") (hprice : o.price = 100)
    (hev : ev.orderHash = o.hash) :
    dictGet (order_requeue_update_handler (order_requeue_update_handler
        (order_requeue_update_handler ⟨[(o.hash, o)], []⟩ ev) ev) ev).orders
      o.hash = some { o with price := 101 } ∧
    dictGet (order_requeue_update_handler (order_requeue_update_handler
        (order_requeue_update_handler ⟨[(o.hash, o)], []⟩ ev) ev)
        ev).requeue_counts o.hash = some 3 := by
  have e1 : order_requeue_update_handler ⟨[(o.hash, o)], []⟩ ev =
      ⟨[(o.hash, o)], [(o.hash, 1)]⟩ := by
    norm_num [order_requeue_update_handler, save_order, dictGet, dictSet,
      List.find?, REQUEUE_ADJUSTMENT_THRESHOLD, hev]
  have e2 : order_requeue_update_handler ⟨[(o.hash, o)], [(o.hash, 1)]⟩ ev =
      ⟨[(o.hash, o)], [(o.hash, 2)]⟩ := by
    norm_num [order_requeue_update_handler, save_order, dictGet, dictSet,
      List.find?, REQUEUE_ADJUSTMENT_THRESHOLD, hev]
  have e3 : order_requeue_update_handler ⟨[(o.hash, o)], [(o.hash, 2)]⟩ ev =
      ⟨[(o.hash, { o with price := 101 })], [(o.hash, 3)]⟩ := by
    norm_num [order_requeue_update_handler, save_order, dictGet, dictSet,
      List.find?, REQUEUE_ADJUSTMENT_THRESHOLD, hev, hside, hprice,
      Order.mk.injEq]
  rw [e1, e2, e3]
  exact ⟨dictGet_singleton_self _ _, dictGet_singleton_self _ _⟩

/-- Witness for C2 (amended), at the concrete requeue scenario. -/
theorem C2_witness :
    dictGet (order_requeue_update_handler (order_requeue_update_handler
        (order_requeue_update_handler ⟨[(requeueOrder.hash, requeueOrder)], []⟩
          requeueEvent) requeueEvent) requeueEvent).orders
      requeueOrder.hash = some { requeueOrder with price := 101 } ∧
    dictGet (order_requeue_update_handler (order_requeue_update_handler
        (order_requeue_update_handler ⟨[(requeueOrder.hash, requeueOrder)], []⟩
          requeueEvent) requeueEvent) requeueEvent).requeue_counts
      requeueOrder.hash = some 3 :=
  C2_requeue_adjustment requeueOrder requeueEvent rfl rfl rfl

/-- A claim C9: when `create_signed_order` returns a signed order with
no `orderHash` field, a successful `place_order` tracks the new order
in the Ledger under the empty-string key with an empty hash — an order
whose hash was never assigned is nevertheless tracked, refuting the
invariant as stated. -/
theorem C9_counterexample :
    (place_order ⟨[], []⟩ ⟨"BTC-PERP", "BUY", 1, none, "MARKET", none⟩
        (SignedOrderResult.signed none) PostResult.posted).2.orders =
      [("", Order.init "BTC-PERP" "BUY" 1 "MARKET" 0 1 "" "created")] ∧
    (Order.init "BTC-PERP" "BUY" 1 "MARKET" 0 1 "" "created").hash = "" := by
  exact ⟨rfl, rfl⟩

/-- Claim C9 (amended): provided every successful signing step yields a
signed order carrying a non-empty `orderHash`, `place_order` preserves
the Ledger invariant that every tracked order's hash equals its key and
is non-empty (keys of the dict-modelled Ledger are unique by
construction, so no two tracked orders share a key); when the hash is
absent the order is instead tracked under the empty string. -/
theorem C9_place_order_invariant (st : ClientState) (a : PlaceOrderArgs)
    (h : String)
    (hinv : ∀ k o₀, dictGet st.orders k = some o₀ → o₀.hash = k ∧ k ≠ "")
    (hne : h ≠ "") :
    ∀ k o₀,
      dictGet (place_order st a (SignedOrderResult.signed (some h))
          PostResult.posted).2.orders k = some o₀ →
      o₀.hash = k ∧ k ≠ "" := by
  intro k o₀ hk
  by_cases hkh : k = h
  · subst hkh
    rw [show (place_order st a (SignedOrderResult.signed (some k))
        PostResult.posted).2.orders = dictSet st.orders k
          (Order.init a.symbol a.side a.quantity a.order_type
            (match a.price with
             | none => 0
             | some p => if p = 0 then 0 else p)
            (match a.leverage with
             | none => 1
             | some l => if l = 0 then 1 else l)
            k "created") from rfl] at hk
    rw [dictGet_dictSet_self] at hk
    have := Option.some.inj hk
    rw [← this]
    exact ⟨rfl, hne⟩
  · rw [show (place_order st a (SignedOrderResult.signed (some h))
        PostResult.posted).2.orders = dictSet st.orders h
          (Order.init a.symbol a.side a.quantity a.order_type
            (match a.price with
             | none => 0
             | some p => if p = 0 then 0 else p)
            (match a.leverage with
             | none => 1
             | some l => if l = 0 then 1 else l)
            h "created") from rfl] at hk
    rw [dictGet_dictSet_ne _ _ _ _ hkh] at hk
    exact hinv k o₀ hk

/-- Witness for C9 (amended): placing an order with hash `0x1` into an
empty ledger yields a tracked order satisfying the invariant. -/
theorem C9_witness :
    (Order.init "BTC-PERP" "BUY" 1 "MARKET" 0 1 "0x1" "created").hash = "0x1"
      ∧ "0x1" ≠ "" :=
  C9_place_order_invariant ⟨[], []⟩ ⟨"BTC-PERP", "BUY", 1, none, "MARKET", none⟩
    "0x1" (fun k o₀ hh => by simp [dictGet] at hh) (by decide) "0x1"
    (Order.init "BTC-PERP" "BUY" 1 "MARKET" 0 1 "0x1" "created") rfl

/-- Claim C10: `place_order` is atomic with respect to the Ledger on
failure: if creating the signed order or posting it raises, the
exception propagates (`Except.error`) and the client state — in
particular the orders dict — is exactly the state before the call; an
order is added to the Ledger only in the remaining case, after
`post_signed_order` has returned successfully. -/
theorem C10_place_order_atomic (st : ClientState) (a : PlaceOrderArgs)
    (signed : SignedOrderResult) (post : PostResult) :
    ((signed = SignedOrderResult.raised ∨ post = PostResult.raised) →
      place_order st a signed post = (Except.error (), st)) ∧
    ((place_order st a signed post).2 ≠ st →
      ∃ oh, signed = SignedOrderResult.signed oh ∧ post = PostResult.posted) := by
  constructor
  · rintro (hs | hp)
    · subst hs
      rfl
    · subst hp
      cases signed <;> rfl
  · intro hchanged
    cases signed with
    | raised => exact absurd rfl hchanged
    | signed oh =>
      cases post with
      | raised => exact absurd rfl hchanged
      | posted => exact ⟨oh, rfl, rfl⟩

/-- Witness for C10: a failing post leaves an empty ledger empty and
propagates the error. -/
theorem C10_witness :
    place_order ⟨[], []⟩ ⟨"BTC-PERP", "BUY", 1, none, "MARKET", none⟩
      (SignedOrderResult.signed (some "0x1")) PostResult.raised
      = (Except.error (), (⟨[], []⟩ : ClientState)) :=
  (C10_place_order_atomic ⟨[], []⟩ ⟨"BTC-PERP", "BUY", 1, none, "MARKET", none⟩
    (SignedOrderResult.signed (some "0x1")) PostResult.raised).1 (Or.inr rfl)

end PerplexTrader
